import Mathlib

/-!
Verification of the semaphore-restaurant protocol implementation
(src/semaphore_restaurant/src/semSharedMemGroup.c, semSharedMemReceptionist.c,
semSharedMemWaiter.c) against its natural-language specification.

The shared memory record `sh->fSt` (plus the receptionist's private
`groupRecord` array and the SysV semaphore set) is embedded as a Lean state
structure; every operation of the three actors is embedded as a function from
states to an outcome that is either normal completion or blocking on a named
semaphore whose counter is zero at that point.  Each shared-field access and
each mutex acquire/release additionally appends an event to a trace, so that
the mutual-exclusion discipline of the code can be inspected.

Machine integers of the C code are embedded as Lean `Int` (no overflow is
reachable at the scales involved); C arrays are embedded as total maps
`Int → Int` so that the out-of-bounds indices the code can produce stay
observable instead of being undefined behaviour.
-/

namespace Restaurant

/-- Shared fields of `sh->fSt` (including the `st` sub-record), used to tag
read/write events.  Scalar fields use index 0 in events. -/
inductive Field where
  | groupStat
  | receptionistStat
  | waiterStat
  | chefStat
  | assignedTable
  | groupsWaiting
  | receptionistRequest
  | waiterRequest
  | foodGroup
deriving DecidableEq, Repr

/-- The semaphores of the shared semaphore set (`sharedDataSync.h`). -/
inductive SemName where
  | mutex
  | waitForTable
  | tableDone
  | foodArrived
  | waiterRequestPossible
  | waitOrder
  | orderReceived
deriving DecidableEq, Repr

/-- One observable event of an operation: mutex acquire/release, a read or
write of a shared field, or an up/down on a signalling channel. -/
inductive Ev where
  | acq
  | rel
  | rd (f : Field) (i : Int)
  | wr (f : Field) (i : Int)
  | chDown (c : SemName) (i : Int)
  | chUp (c : SemName) (i : Int)
deriving DecidableEq, Repr

/-- The `request` record of the C code (`reqType`, `reqGroup`). -/
structure Request where
  reqType : Int
  reqGroup : Int
deriving DecidableEq, Repr

/-- The shared record `sh->fSt` (with the inner `st` status record
flattened in). -/
structure FullState where
  groupStat : Int → Int
  receptionistStat : Int
  waiterStat : Int
  chefStat : Int
  assignedTable : Int → Int
  groupsWaiting : Int
  receptionistRequest : Request
  waiterRequest : Request
  foodGroup : Int

/-- Counters of the semaphore set.  Per-entity semaphore arrays are maps
from the entity index. -/
structure Sems where
  mutex : Nat
  waitForTable : Int → Nat
  tableDone : Int → Nat
  foodArrived : Int → Nat
  waiterRequestPossible : Nat
  waitOrder : Nat
  orderReceived : Nat

/-- Complete system state: shared record, the receptionist's private
`groupRecord` array, the semaphore counters and the event trace produced
so far. -/
structure Sys where
  fSt : FullState
  groupRecord : Int → Int
  sems : Sems
  tr : List Ev

/-- Outcome of running one embedded operation: normal completion with a
result value, or blocking on semaphore `sem` (index `idx`) whose counter is
zero, with the state reached at the blocking point. -/
inductive Res (α : Type) where
  | done (val : α) (s : Sys)
  | blocked (sem : SemName) (idx : Int) (s : Sys)

/-- State reached by an operation, whether it completed or blocked. -/
def sysAfter {α : Type} : Res α → Sys
  | Res.done _ s => s
  | Res.blocked _ _ s => s

/-- Whether the operation blocked on the given semaphore. -/
def blockedOn {α : Type} (r : Res α) (nm : SemName) : Bool :=
  match r with
  | Res.done _ _ => false
  | Res.blocked nm2 _ _ => nm2 == nm

/-- Pointwise array update, embedding `a[i] = v`. -/
def upd (f : Int → Int) (i v : Int) : Int → Int :=
  fun j => if j = i then v else f j

/-- Pointwise update of a `Nat`-valued map (semaphore counter arrays). -/
def updN (f : Int → Nat) (i : Int) (v : Nat) : Int → Nat :=
  fun j => if j = i then v else f j

/- Constants defined locally in the `.c` files themselves. -/

/-- `#define CHECKING_IN 0` (semSharedMemGroup.c / semSharedMemReceptionist.c). -/
def CHECKING_IN : Int := 0
/-- `#define AT_TABLE 1` (semSharedMemGroup.c / semSharedMemReceptionist.c). -/
def AT_TABLE : Int := 1
/-- `#define WAITING 2` (semSharedMemGroup.c / semSharedMemReceptionist.c). -/
def WAITING : Int := 2
/-- `#define TOARRIVE 0` — `groupRecord` constant (semSharedMemReceptionist.c). -/
def TOARRIVE : Int := 0
/-- `#define WAIT 1` — `groupRecord` constant, also written to
`receptionistStat` by the code (semSharedMemReceptionist.c). -/
def WAIT : Int := 1
/-- `#define ATTABLE 2` — `groupRecord` constant (semSharedMemReceptionist.c). -/
def ATTABLE : Int := 2
/-- `#define DONE 3` — `groupRecord` constant (semSharedMemReceptionist.c). -/
def DONE : Int := 3

/-- Modelled from the spec: the constants of the missing headers
`probConst.h` / `probDataStruct.h` / `sharedDataSync.h` (group/table counts,
status codes of the actors, request kinds).  The spec fixes their roles and
their distinctness (distinct protocol stages and the four request kinds of
§6), not their numeric values, so they are kept as parameters of every
embedded operation. -/
structure Consts where
  MAXGROUPS : Nat
  NUMTABLES : Nat
  ATRECEPTION : Int
  FOOD_REQUEST : Int
  WAIT_FOR_FOOD : Int
  EAT : Int
  CHECKOUT : Int
  LEAVING : Int
  ASSIGNTABLE : Int
  RECVPAY : Int
  WAIT_FOR_REQUEST : Int
  INFORM_CHEF : Int
  TAKE_TO_TABLE : Int
  TABLEREQ : Int
  BILLREQ : Int
  FOODREQ : Int
  FOODREADY : Int

/- Primitive state transformers, each also recording its trace event.
`saveState` (external state-snapshot collaborator, spec §6) has no effect on
the protocol state and is not modelled. -/

/-- Append a read event (the value itself is taken from the state at the
use site). -/
def rdEv (f : Field) (i : Int) (s : Sys) : Sys :=
  { s with tr := s.tr ++ [Ev.rd f i] }

/-- `sh->fSt.st.groupStat[i] = v`. -/
def wrGroupStat (i v : Int) (s : Sys) : Sys :=
  { s with fSt.groupStat := upd s.fSt.groupStat i v,
           tr := s.tr ++ [Ev.wr Field.groupStat i] }

/-- `sh->fSt.st.receptionistStat = v`. -/
def wrReceptionistStat (v : Int) (s : Sys) : Sys :=
  { s with fSt.receptionistStat := v,
           tr := s.tr ++ [Ev.wr Field.receptionistStat 0] }

/-- `sh->fSt.st.waiterStat = v`. -/
def wrWaiterStat (v : Int) (s : Sys) : Sys :=
  { s with fSt.waiterStat := v,
           tr := s.tr ++ [Ev.wr Field.waiterStat 0] }

/-- `sh->fSt.assignedTable[i] = v`. -/
def wrAssignedTable (i v : Int) (s : Sys) : Sys :=
  { s with fSt.assignedTable := upd s.fSt.assignedTable i v,
           tr := s.tr ++ [Ev.wr Field.assignedTable i] }

/-- `sh->fSt.groupsWaiting = v`. -/
def wrGroupsWaiting (v : Int) (s : Sys) : Sys :=
  { s with fSt.groupsWaiting := v,
           tr := s.tr ++ [Ev.wr Field.groupsWaiting 0] }

/-- `sh->fSt.receptionistRequest.reqType = v`. -/
def wrRecepReqType (v : Int) (s : Sys) : Sys :=
  { s with fSt.receptionistRequest.reqType := v,
           tr := s.tr ++ [Ev.wr Field.receptionistRequest 0] }

/-- `sh->fSt.receptionistRequest.reqGroup = v`. -/
def wrRecepReqGroup (v : Int) (s : Sys) : Sys :=
  { s with fSt.receptionistRequest.reqGroup := v,
           tr := s.tr ++ [Ev.wr Field.receptionistRequest 0] }

/-- `sh->fSt.waiterRequest.reqType = v`. -/
def wrWaiterReqType (v : Int) (s : Sys) : Sys :=
  { s with fSt.waiterRequest.reqType := v,
           tr := s.tr ++ [Ev.wr Field.waiterRequest 0] }

/-- `sh->fSt.waiterRequest.reqGroup = v`. -/
def wrWaiterReqGroup (v : Int) (s : Sys) : Sys :=
  { s with fSt.waiterRequest.reqGroup := v,
           tr := s.tr ++ [Ev.wr Field.waiterRequest 0] }

/-- The receptionist's private `groupRecord[i] = v` (not a shared field:
no shared-access event). -/
def wrGroupRecord (i v : Int) (s : Sys) : Sys :=
  { s with groupRecord := upd s.groupRecord i v }

/-- State after a successful `semDown` on the mutex: counter decremented,
acquire event recorded. -/
def acqState (s : Sys) : Sys :=
  { s with sems.mutex := s.sems.mutex - 1, tr := s.tr ++ [Ev.acq] }

/-- `semDown(semgid, sh->mutex)`: blocks when the counter is zero. -/
def downMutex (s : Sys) : Res Unit :=
  if s.sems.mutex = 0 then Res.blocked SemName.mutex 0 s
  else Res.done () (acqState s)

/-- `semUp(semgid, sh->mutex)`. -/
def upMutex (s : Sys) : Sys :=
  { s with sems.mutex := s.sems.mutex + 1, tr := s.tr ++ [Ev.rel] }

/-- `semUp(semgid, sh->waitForTable[i])`. -/
def upWaitForTable (i : Int) (s : Sys) : Sys :=
  { s with sems.waitForTable :=
             updN s.sems.waitForTable i (s.sems.waitForTable i + 1),
           tr := s.tr ++ [Ev.chUp SemName.waitForTable i] }

/-- `semDown(semgid, sh->tableDone[i])`: blocks when the counter is zero. -/
def downTableDone (i : Int) (s : Sys) : Res Unit :=
  if s.sems.tableDone i = 0 then Res.blocked SemName.tableDone i s
  else Res.done () { s with sems.tableDone :=
                              updN s.sems.tableDone i (s.sems.tableDone i - 1),
                            tr := s.tr ++ [Ev.chDown SemName.tableDone i] }

/-- `semUp(semgid, sh->tableDone[i])`. -/
def upTableDone (i : Int) (s : Sys) : Sys :=
  { s with sems.tableDone := updN s.sems.tableDone i (s.sems.tableDone i + 1),
           tr := s.tr ++ [Ev.chUp SemName.tableDone i] }

/-- `semDown(semgid, sh->foodArrived[i])`: blocks when the counter is zero. -/
def downFoodArrived (i : Int) (s : Sys) : Res Unit :=
  if s.sems.foodArrived i = 0 then Res.blocked SemName.foodArrived i s
  else Res.done () { s with sems.foodArrived :=
                              updN s.sems.foodArrived i (s.sems.foodArrived i - 1),
                            tr := s.tr ++ [Ev.chDown SemName.foodArrived i] }

/-- `semUp(semgid, sh->foodArrived[i])`. -/
def upFoodArrived (i : Int) (s : Sys) : Sys :=
  { s with sems.foodArrived := updN s.sems.foodArrived i (s.sems.foodArrived i + 1),
           tr := s.tr ++ [Ev.chUp SemName.foodArrived i] }

/-- `semUp(semgid, sh->waiterRequestPossible)`. -/
def upWaiterRequestPossible (s : Sys) : Sys :=
  { s with sems.waiterRequestPossible := s.sems.waiterRequestPossible + 1,
           tr := s.tr ++ [Ev.chUp SemName.waiterRequestPossible 0] }

/-- `semUp(semgid, sh->waitOrder)`. -/
def upWaitOrder (s : Sys) : Sys :=
  { s with sems.waitOrder := s.sems.waitOrder + 1,
           tr := s.tr ++ [Ev.chUp SemName.waitOrder 0] }

/-- `semDown(semgid, sh->orderReceived)`: blocks when the counter is zero. -/
def downOrderReceived (s : Sys) : Res Unit :=
  if s.sems.orderReceived = 0 then Res.blocked SemName.orderReceived 0 s
  else Res.done () { s with sems.orderReceived := s.sems.orderReceived - 1,
                            tr := s.tr ++ [Ev.chDown SemName.orderReceived 0] }

/- ### Group actor (semSharedMemGroup.c) -/

/-- Embedding of `checkInAtReception` (semSharedMemGroup.c, lines 194-242):
acquire the mutex; read `groupsWaiting` to compute `isFirstGroup`; increment
`groupsWaiting`; post `{TABLEREQ, id}` to `receptionistRequest`; set own
status to `ATRECEPTION`; scan `assignedTable` for the first vacant (`-1`)
slot and, if found, write own id into it and set own status `AT_TABLE`
(written inside the loop and again after it), else set own status `WAITING`;
release the mutex and return `isFirstGroup`.  The function returns without
blocking in either case. -/
def checkInAtReception (c : Consts) (id : Int) (s : Sys) : Res Bool :=
  match downMutex s with
  | Res.blocked nm i s1 => Res.blocked nm i s1
  | Res.done _ s1 =>
    let isFirstGroup := s1.fSt.groupsWaiting == 0
    let s2 := rdEv Field.groupsWaiting 0 s1
    let s3 := wrGroupsWaiting (s2.fSt.groupsWaiting + 1) s2
    let s4 := wrRecepReqGroup id (wrRecepReqType c.TABLEREQ s3)
    let s5 := wrGroupStat id c.ATRECEPTION s4
    let s6 :=
      match (List.range c.NUMTABLES).find?
              (fun t => s5.fSt.assignedTable (Int.ofNat t) == -1) with
      | some t =>
        wrGroupStat id AT_TABLE
          (wrGroupStat id AT_TABLE (wrAssignedTable (Int.ofNat t) id s5))
      | none => wrGroupStat id WAITING s5
    Res.done isFirstGroup (upMutex s6)

/-- Embedding of `orderFood` (semSharedMemGroup.c, lines 254-281):
acquire the mutex; set own status `FOOD_REQUEST`; post `{FOODREQ, id}` to
`waiterRequest`; release the mutex.  No blocking beyond the mutex. -/
def orderFood (c : Consts) (id : Int) (s : Sys) : Res Unit :=
  match downMutex s with
  | Res.blocked nm i s1 => Res.blocked nm i s1
  | Res.done _ s1 =>
    let s2 := wrGroupStat id c.FOOD_REQUEST s1
    let s3 := wrWaiterReqGroup id (wrWaiterReqType c.FOODREQ s2)
    Res.done () (upMutex s3)

/-- Embedding of `waitFood` (semSharedMemGroup.c, lines 292-335):
acquire the mutex; set own status `WAIT_FOR_FOOD`; release the mutex;
read `assignedTable[id]` (outside the mutex) as the table id; block on
`foodArrived[tableId]`; reacquire the mutex; set own status `EAT`;
release the mutex. -/
def waitFood (c : Consts) (id : Int) (s : Sys) : Res Unit :=
  match downMutex s with
  | Res.blocked nm i s1 => Res.blocked nm i s1
  | Res.done _ s1 =>
    let s2 := upMutex (wrGroupStat id c.WAIT_FOR_FOOD s1)
    let s3 := rdEv Field.assignedTable id s2
    let tableId := s3.fSt.assignedTable id
    match downFoodArrived tableId s3 with
    | Res.blocked nm i s4 => Res.blocked nm i s4
    | Res.done _ s4 =>
      match downMutex s4 with
      | Res.blocked nm i s5 => Res.blocked nm i s5
      | Res.done _ s5 => Res.done () (upMutex (wrGroupStat id c.EAT s5))

/-- Embedding of `checkOutAtReception` (semSharedMemGroup.c, lines 348-394):
acquire the mutex; set own status `CHECKOUT`; post `{BILLREQ, id}` to
`receptionistRequest`; release the mutex; block on `tableDone[id]`;
reacquire the mutex; set own status `LEAVING`; release the mutex. -/
def checkOutAtReception (c : Consts) (id : Int) (s : Sys) : Res Unit :=
  match downMutex s with
  | Res.blocked nm i s1 => Res.blocked nm i s1
  | Res.done _ s1 =>
    let s2 := wrGroupStat id c.CHECKOUT s1
    let s3 := wrRecepReqGroup id (wrRecepReqType c.BILLREQ s2)
    let s4 := upMutex s3
    match downTableDone id s4 with
    | Res.blocked nm i s5 => Res.blocked nm i s5
    | Res.done _ s5 =>
      match downMutex s5 with
      | Res.blocked nm i s6 => Res.blocked nm i s6
      | Res.done _ s6 => Res.done () (upMutex (wrGroupStat id c.LEAVING s6))

/- ### Receptionist actor (semSharedMemReceptionist.c) -/

/-- Embedding of `decideTableOrWait` (semSharedMemReceptionist.c, lines
156-175): count tables whose `assignedTable` entry equals `1` as occupied;
if that count equals `NUMTABLES` return `-1`; otherwise return the first
table whose entry is `-1`, or `-1` if none.  Pure reads only; the C code
runs it while the caller holds the mutex.  The parameter `n` is taken and
ignored, as in the source. -/
def decideTableOrWait (c : Consts) (fSt : FullState) (n : Int) : Int :=
  let tablesOccupied :=
    ((List.range c.NUMTABLES).filter
      (fun t => fSt.assignedTable (Int.ofNat t) == 1)).length
  if tablesOccupied = c.NUMTABLES then -1
  else
    match (List.range c.NUMTABLES).find?
            (fun t => fSt.assignedTable (Int.ofNat t) == -1) with
    | some t => Int.ofNat t
    | none => -1

/-- Embedding of `decideNextGroup` (semSharedMemReceptionist.c, lines
185-214): performs its own `semDown` on the mutex (blocking if the counter
is zero — in particular when its caller already holds the mutex); scans
`groupRecord` for the first group equal to `WAIT`; if found, sets that
group's record to `ATTABLE` and its shared status to `AT_TABLE`; releases
the mutex; returns the group id or `-1`. -/
def decideNextGroup (c : Consts) (s : Sys) : Res Int :=
  match downMutex s with
  | Res.blocked nm i s1 => Res.blocked nm i s1
  | Res.done _ s1 =>
    let nextGroup : Int :=
      match (List.range c.MAXGROUPS).find?
              (fun i => s1.groupRecord (Int.ofNat i) == WAIT) with
      | some i => Int.ofNat i
      | none => -1
    let s2 :=
      if nextGroup != -1 then
        wrGroupStat nextGroup AT_TABLE (wrGroupRecord nextGroup ATTABLE s1)
      else s1
    Res.done nextGroup (upMutex s2)

/-- Embedding of `waitForGroup` (semSharedMemReceptionist.c, lines 225-254):
the C body zero-initialises `request req = {0}`, acquires the mutex, sets
`receptionistStat = WAIT`, releases the mutex, and returns `req` — the
waiting/consuming part is absent from the source (only comments stand in
its place), so the function neither blocks nor touches
`receptionistRequest`. -/
def waitForGroup (s : Sys) : Res Request :=
  match downMutex s with
  | Res.blocked nm i s1 => Res.blocked nm i s1
  | Res.done _ s1 => Res.done { reqType := 0, reqGroup := 0 }
      (upMutex (wrReceptionistStat WAIT s1))

/-- Embedding of `provideTableOrWaitingRoom` (semSharedMemReceptionist.c,
lines 265-303): acquire the mutex; compute `decideTableOrWait`; if a table
id was returned, set `receptionistStat = ASSIGNTABLE`, set
`groupRecord[n] = ATTABLE` and signal `waitForTable[n]`; otherwise set
`receptionistStat = WAIT` and `groupRecord[n] = WAIT`; release the mutex.
The source writes neither `assignedTable` nor `groupStat` here. -/
def provideTableOrWaitingRoom (c : Consts) (n : Int) (s : Sys) : Res Unit :=
  match downMutex s with
  | Res.blocked nm i s1 => Res.blocked nm i s1
  | Res.done _ s1 =>
    let tableId := decideTableOrWait c s1.fSt n
    let s2 :=
      if tableId != -1 then
        upWaitForTable n (wrGroupRecord n ATTABLE (wrReceptionistStat c.ASSIGNTABLE s1))
      else
        wrGroupRecord n WAIT (wrReceptionistStat WAIT s1)
    Res.done () (upMutex s2)

/-- Embedding of `receivePayment` (semSharedMemReceptionist.c, lines
315-352): acquire the mutex; set `receptionistStat = RECVPAY`; read
`tableId := assignedTable[n]` (indexing the array by the group id); write
`assignedTable[tableId] = -1`; set `groupRecord[n] = DONE`; call
`decideNextGroup` (which performs its own `semDown` on the mutex, already
held here); if it returns a group, rebind `assignedTable[tableId]` to it,
set its record `ATTABLE`, its status `AT_TABLE` and signal its
`waitForTable`; release the mutex.  The source contains no `semUp` on
`tableDone`. -/
def receivePayment (c : Consts) (n : Int) (s : Sys) : Res Unit :=
  match downMutex s with
  | Res.blocked nm i s1 => Res.blocked nm i s1
  | Res.done _ s1 =>
    let s2 := wrReceptionistStat c.RECVPAY s1
    let s3 := rdEv Field.assignedTable n s2
    let tableId := s3.fSt.assignedTable n
    let s4 := wrGroupRecord n DONE (wrAssignedTable tableId (-1) s3)
    match decideNextGroup c s4 with
    | Res.blocked nm i s5 => Res.blocked nm i s5
    | Res.done nextGroup s5 =>
      let s6 :=
        if nextGroup != -1 then
          upWaitForTable nextGroup
            (wrGroupStat nextGroup AT_TABLE
              (wrGroupRecord nextGroup ATTABLE
                (wrAssignedTable tableId nextGroup s5)))
        else s5
      Res.done () (upMutex s6)

/- ### Waiter actor (semSharedMemWaiter.c) -/

/-- The scan of `waitForClientOrChef` over the groups (semSharedMemWaiter.c,
lines 154-162): first group index below `MAXGROUPS` whose status equals
`FOOD_REQUEST`.  Pure reads only, executed while the mutex is held. -/
def scanForFoodRequest (c : Consts) (fSt : FullState) : Option Int :=
  match (List.range c.MAXGROUPS).find?
          (fun i => fSt.groupStat (Int.ofNat i) == c.FOOD_REQUEST) with
  | some i => some (Int.ofNat i)
  | none => none

/-- One iteration of the `while (!foundRequest)` loop of
`waitForClientOrChef` (semSharedMemWaiter.c, lines 147-181): acquire the
mutex; scan for a group in `FOOD_REQUEST` (if found, move it to
`WAIT_FOR_FOOD` and build a `FOODREQ` request); otherwise, if
`chefStat == FOODREADY`, read `foodGroup` and build a `FOODREADY` request;
release the mutex; when nothing was found, write
`waiterStat = WAIT_FOR_REQUEST` after the mutex was released and report
no request. -/
def waitIter (c : Consts) (s : Sys) : Res (Option Request) :=
  match downMutex s with
  | Res.blocked nm i s1 => Res.blocked nm i s1
  | Res.done _ s1 =>
    match scanForFoodRequest c s1.fSt with
    | some i =>
      let s2 := wrGroupStat i c.WAIT_FOR_FOOD s1
      Res.done (some { reqType := c.FOODREQ, reqGroup := i }) (upMutex s2)
    | none =>
      if s1.fSt.chefStat == c.FOODREADY then
        let s2 := rdEv Field.foodGroup 0 s1
        Res.done (some { reqType := c.FOODREADY, reqGroup := s2.fSt.foodGroup })
          (upMutex s2)
      else
        Res.done none (wrWaiterStat c.WAIT_FOR_REQUEST (upMutex s1))

/-- Outcome of the waiter's scan-and-wait: a request was found (after
signalling `waiterRequestPossible`), the iteration blocked on a semaphore,
or the given iteration budget was exhausted with the loop still spinning. -/
inductive WaiterRes where
  | found (req : Request) (s : Sys)
  | blockedW (sem : SemName) (idx : Int) (s : Sys)
  | spinning (s : Sys)

/-- Embedding of `waitForClientOrChef` (semSharedMemWaiter.c, lines
142-190), with an explicit iteration budget for its unbounded
`while (!foundRequest)` loop: repeat `waitIter` until a request is found,
then signal `waiterRequestPossible` and return it.  The loop contains no
blocking operation other than the mutex itself; `WaiterRes.spinning` marks
a run that exhausted its budget without finding a request. -/
def waitForClientOrChef (c : Consts) : Nat → Sys → WaiterRes
  | 0, s => WaiterRes.spinning s
  | Nat.succ fuel, s =>
    match waitIter c s with
    | Res.blocked nm i s1 => WaiterRes.blockedW nm i s1
    | Res.done (some req) s1 => WaiterRes.found req (upWaiterRequestPossible s1)
    | Res.done none s1 => waitForClientOrChef c fuel s1

/-- Embedding of `informChef` (semSharedMemWaiter.c, lines 202-236):
acquire the mutex; write `waiterRequest.reqGroup = n`; set
`waiterStat = INFORM_CHEF`; release the mutex; signal `waitOrder`; block on
`orderReceived`. -/
def informChef (c : Consts) (n : Int) (s : Sys) : Res Unit :=
  match downMutex s with
  | Res.blocked nm i s1 => Res.blocked nm i s1
  | Res.done _ s1 =>
    let s2 := upMutex (wrWaiterStat c.INFORM_CHEF (wrWaiterReqGroup n s1))
    let s3 := upWaitOrder s2
    match downOrderReceived s3 with
    | Res.blocked nm i s4 => Res.blocked nm i s4
    | Res.done _ s4 => Res.done () s4

/-- Embedding of `takeFoodToTable` (semSharedMemWaiter.c, lines 246-272):
acquire the mutex; set `waiterStat = TAKE_TO_TABLE`; release the mutex;
read `assignedTable[n]` (outside the mutex) and signal `foodArrived` at
that index. -/
def takeFoodToTable (c : Consts) (n : Int) (s : Sys) : Res Unit :=
  match downMutex s with
  | Res.blocked nm i s1 => Res.blocked nm i s1
  | Res.done _ s1 =>
    let s2 := upMutex (wrWaiterStat c.TAKE_TO_TABLE s1)
    let s3 := rdEv Field.assignedTable n s2
    Res.done () (upFoodArrived (s3.fSt.assignedTable n) s3)

/- ### Gate-discipline checker over traces -/

/-- Checks that every shared-field access in the trace happens while the
mutex is held (`d` is the current hold depth; depth never exceeds one in
this program, but the checker is depth-generic). -/
def accessesUnderGate : Nat → List Ev → Bool
  | _, [] => true
  | d, Ev.acq :: es => accessesUnderGate (d + 1) es
  | d, Ev.rel :: es => accessesUnderGate (d - 1) es
  | d, Ev.rd _ _ :: es => decide (0 < d) && accessesUnderGate d es
  | d, Ev.wr _ _ :: es => decide (0 < d) && accessesUnderGate d es
  | d, Ev.chDown _ _ :: es => accessesUnderGate d es
  | d, Ev.chUp _ _ :: es => accessesUnderGate d es

/- ### Generic helpers for stating properties -/

/-- Result value of a completed operation (`none` when it blocked). -/
def resVal {α : Type} : Res α → Option α
  | Res.done v _ => some v
  | Res.blocked _ _ _ => none

/-- Sequencing of two operations: run the second on the state left by the
first when it completed; propagate blocking otherwise. -/
def bindRes {α β : Type} (r : Res α) (f : Sys → Res β) : Res β :=
  match r with
  | Res.done _ s => f s
  | Res.blocked nm i s => Res.blocked nm i s

/- ### Concrete instantiation for the scenarios -/

/-- Modelled from the spec: concrete values for the constants of the missing
headers (`probConst.h`, `probDataStruct.h`): the spec only fixes that the
protocol stages and the four request kinds (§6) are distinct codes, so
distinct representatives are chosen, also distinct from the values `0`-`3`
that the `.c` files fix locally (`CHECKING_IN`, `AT_TABLE`, `WAITING`,
`TOARRIVE`, `WAIT`, `ATTABLE`, `DONE`).  Group/table counts are the
per-scenario parameters. -/
def testConsts (mg nt : Nat) : Consts :=
  { MAXGROUPS := mg, NUMTABLES := nt,
    ATRECEPTION := 10, FOOD_REQUEST := 11, WAIT_FOR_FOOD := 12, EAT := 13,
    CHECKOUT := 14, LEAVING := 15, ASSIGNTABLE := 20, RECVPAY := 21,
    WAIT_FOR_REQUEST := 30, INFORM_CHEF := 31, TAKE_TO_TABLE := 32,
    TABLEREQ := 40, BILLREQ := 41, FOODREQ := 42, FOODREADY := 43 }

/-- Semaphore set as initialised for the simulation: mutex free (1), every
signalling channel at 0. -/
def baseSems : Sems :=
  { mutex := 1, waitForTable := fun _ => 0, tableDone := fun _ => 0,
    foodArrived := fun _ => 0, waiterRequestPossible := 0, waitOrder := 0,
    orderReceived := 0 }

/-- System state with the given group statuses, table assignments,
receptionist records, waiting counter and chef status; everything else at
its initial value, trace empty. -/
def mkSys (groupStat : Int → Int) (assignedTable : Int → Int)
    (groupRecord : Int → Int) (groupsWaiting : Int) (chefStat : Int) : Sys :=
  { fSt := { groupStat := groupStat, receptionistStat := 0, waiterStat := 0,
             chefStat := chefStat, assignedTable := assignedTable,
             groupsWaiting := groupsWaiting,
             receptionistRequest := { reqType := 0, reqGroup := 0 },
             waiterRequest := { reqType := 0, reqGroup := 0 },
             foodGroup := -1 },
    groupRecord := groupRecord, sems := baseSems, tr := [] }

/-- Scenario for C1/C6 (3 groups, 1 table): group 0 seated at table 0 and
paying, groups 1 and 2 recorded `WAIT` by the receptionist and in status
`WAITING`. -/
def sPay : Sys :=
  mkSys (fun g => if g = 0 then AT_TABLE else WAITING)
        (fun t => if t = 0 then 0 else -1)
        (fun g => if g = 0 then ATTABLE else if g = 1 then WAIT else if g = 2 then WAIT else TOARRIVE)
        2 0

/-- Scenario for the group side of checkout: group 0 seated at table 0,
no pending acknowledgement on `tableDone`. -/
def sCheckout : Sys :=
  mkSys (fun g => if g = 0 then AT_TABLE else 0)
        (fun t => if t = 0 then 0 else -1)
        (fun g => if g = 0 then ATTABLE else TOARRIVE)
        1 0

/-- Scenario for C2: a `TABLEREQ` for group 1 sits in the
`receptionistRequest` mailbox. -/
def sMailbox : Sys :=
  { mkSys (fun _ => 0) (fun _ => -1) (fun _ => TOARRIVE) 0 0 with
      fSt.receptionistRequest := { reqType := (testConsts 3 1).TABLEREQ, reqGroup := 1 } }

/-- Scenario for C3/C4 (1 table): table 0 already occupied by group 0;
group 1 about to check in. -/
def sFull : Sys :=
  mkSys (fun g => if g = 0 then AT_TABLE else 0)
        (fun t => if t = 0 then 0 else -1)
        (fun g => if g = 0 then ATTABLE else TOARRIVE)
        1 0

/-- Scenario for C3(b)/C9: empty restaurant (1 table, vacant), group 0
about to check in. -/
def sEmpty : Sys :=
  mkSys (fun _ => 0) (fun _ => -1) (fun _ => TOARRIVE) 0 0

/-- Scenario for C5 (2 tables): group 0 seated at table 1 (`assignedTable`
holds `1 ↦ 0`, table 0 vacant), group 0 paying. -/
def sPay2 : Sys :=
  mkSys (fun g => if g = 0 then AT_TABLE else 0)
        (fun t => if t = 1 then 0 else -1)
        (fun g => if g = 0 then ATTABLE else TOARRIVE)
        1 0

/-- Scenario for C7: group 0 seated at table 0, its food already signalled
on `foodArrived[0]`, so `waitFood` runs to completion. -/
def sFood : Sys :=
  { mkSys (fun g => if g = 0 then AT_TABLE else 0)
          (fun t => if t = 0 then 0 else -1)
          (fun g => if g = 0 then ATTABLE else TOARRIVE)
          1 0 with
      sems := { baseSems with foodArrived := fun t => if t = 0 then 1 else 0 } }

/-- Scenario for C8: no group in `FOOD_REQUEST`, chef not in `FOODREADY`
(all groups seated and eating nothing yet), mutex free. -/
def sIdle : Sys :=
  mkSys (fun _ => AT_TABLE)
        (fun t => if t = 0 then 0 else -1)
        (fun g => if g = 0 then ATTABLE else TOARRIVE)
        1 0

/-- The spin invariant of the waiter's scan loop: mutex free, no group in
`FOOD_REQUEST`, chef not in `FOODREADY`. -/
def noPending (c : Consts) (s : Sys) : Prop :=
  s.sems.mutex = 1 ∧
  (∀ i : Nat, i < c.MAXGROUPS →
    (s.fSt.groupStat (Int.ofNat i) == c.FOOD_REQUEST) = false) ∧
  (s.fSt.chefStat == c.FOODREADY) = false

/-- State left by one fruitless iteration of the waiter's scan loop:
mutex acquired and released again, then `waiterStat` written outside the
gate. -/
def spinStep (c : Consts) (s : Sys) : Sys :=
  wrWaiterStat c.WAIT_FOR_REQUEST (upMutex (acqState s))

/- ### Theorems -/

theorem upd_self (f : Int → Int) (i : Int) : upd f i (f i) = f := by
  funext j
  unfold upd
  by_cases h : j = i
  · simp [h]
  · simp [h]

theorem updN_self (f : Int → Nat) (i : Int) : updN f i (f i) = f := by
  funext j
  unfold updN
  by_cases h : j = i
  · simp [h]
  · simp [h]

theorem upd_same (f : Int → Int) (i v : Int) : upd f i v i = v := by
  unfold upd
  simp

theorem updN_same (f : Int → Nat) (i : Int) (v : Nat) : updN f i v i = v := by
  unfold updN
  simp

theorem scanForFoodRequest_eq_none (c : Consts) (fSt : FullState)
    (hp : ∀ i : Nat, i < c.MAXGROUPS →
      (fSt.groupStat (Int.ofNat i) == c.FOOD_REQUEST) = false) :
    scanForFoodRequest c fSt = none := by
  unfold scanForFoodRequest
  have hfind : List.find? (fun i => fSt.groupStat (Int.ofNat i) == c.FOOD_REQUEST)
      (List.range c.MAXGROUPS) = none := by
    rw [List.find?_eq_none]
    intro x hx
    simpa using hp x (List.mem_range.mp hx)
  rw [hfind]

theorem waitIter_spins (c : Consts) (s : Sys) (h : noPending c s) :
    waitIter c s = Res.done none (spinStep c s) ∧ noPending c (spinStep c s) := by
  obtain ⟨h1, h2, h3⟩ := h
  have hm : ¬ s.sems.mutex = 0 := by rw [h1]; exact Nat.one_ne_zero
  constructor
  · unfold waitIter
    unfold downMutex
    rw [if_neg hm]
    show (match scanForFoodRequest c s.fSt with
          | some i =>
            Res.done (some ({ reqType := c.FOODREQ, reqGroup := i } : Request))
              (upMutex (wrGroupStat i c.WAIT_FOR_FOOD (acqState s)))
          | none =>
            if (s.fSt.chefStat == c.FOODREADY) = true then
              Res.done (some ({ reqType := c.FOODREADY,
                                reqGroup := (rdEv Field.foodGroup 0 (acqState s)).fSt.foodGroup } : Request))
                (upMutex (rdEv Field.foodGroup 0 (acqState s)))
            else Res.done none (wrWaiterStat c.WAIT_FOR_REQUEST (upMutex (acqState s)))) =
        Res.done none (spinStep c s)
    rw [scanForFoodRequest_eq_none c _ (fun i hi => h2 i hi)]
    rw [h3]
    rfl
  · unfold noPending
    refine ⟨?_, ?_, ?_⟩
    · simp [spinStep, wrWaiterStat, upMutex, acqState, h1]
    · intro i hi
      simpa [spinStep, wrWaiterStat, upMutex, acqState] using h2 i hi
    · simpa [spinStep, wrWaiterStat, upMutex, acqState] using h3

theorem spin_forever (c : Consts) :
    ∀ (fuel : Nat) (s : Sys), noPending c s →
      ∃ s2, waitForClientOrChef c fuel s = WaiterRes.spinning s2 := by
  intro fuel
  induction fuel with
  | zero => intro s _; exact ⟨s, rfl⟩
  | succ n ih =>
    intro s h
    obtain ⟨heq, hinv⟩ := waitIter_spins c s h
    have hstep : waitForClientOrChef c (Nat.succ n) s =
        waitForClientOrChef c n (spinStep c s) := by
      simp [waitForClientOrChef, heq]
    rw [hstep]
    exact ih (spinStep c s) hinv

/-- C1: the spec states that the receptionist's processing of
`BillRequest(g)` in `receivePayment` ends, before releasing the gate, by
signalling `tableDone[g]`, releasing the paying group's block in CheckOut.
The code does neither: it contains no `semUp` on `tableDone`, and it
deadlocks before its end because `decideNextGroup` performs a `semDown` on
the mutex that `receivePayment` already holds.  Concretely, with group 0
paying (scenario `sPay`), `receivePayment` blocks on the mutex with
`tableDone[0]` still zero and the gate never released, while the paying
group's `checkOutAtReception` (scenario `sCheckout`) blocks on
`tableDone[0]` with no release forthcoming. -/
theorem C1_receivePayment_never_signals_tableDone :
    blockedOn (receivePayment (testConsts 3 1) 0 sPay) SemName.mutex = true ∧
    (sysAfter (receivePayment (testConsts 3 1) 0 sPay)).sems.tableDone 0 = 0 ∧
    blockedOn (checkOutAtReception (testConsts 3 1) 0 sCheckout)
      SemName.tableDone = true := by
  decide

/-- C2: the spec states that `waitForGroup` blocks the receptionist on a
true semaphore wait until a request is in the `receptionistRequest`
mailbox, then consumes and clears the slot and returns the submitted
request.  The code's `waitForGroup` does none of this: with a `TABLEREQ`
for group 1 sitting in the mailbox (scenario `sMailbox`), it completes
without blocking, returns the zero-initialised request `{0, 0}` rather than
the submitted one, leaves the mailbox slot untouched, and its whole trace
is just the mutex acquire, the `receptionistStat` write and the mutex
release — no wait on any request semaphore. -/
theorem C2_waitForGroup_returns_zeroed_request :
    resVal (waitForGroup sMailbox) = some { reqType := 0, reqGroup := 0 } ∧
    sMailbox.fSt.receptionistRequest ≠ { reqType := 0, reqGroup := 0 } ∧
    (sysAfter (waitForGroup sMailbox)).fSt.receptionistRequest =
      sMailbox.fSt.receptionistRequest ∧
    (sysAfter (waitForGroup sMailbox)).tr =
      [Ev.acq, Ev.wr Field.receptionistStat 0, Ev.rel] := by
  decide

/-- C3: the spec states that during CheckIn the group either immediately
observes itself seated by the receptionist or blocks on its `waitForTable`
channel, that the table binding is performed by the receptionist, and that
the group ends CheckIn seated at exactly one table.  In the code the group
does neither: with the single table occupied (scenario `sFull`), group 1's
`checkInAtReception` completes without blocking, leaving the group in
status `WAITING` and bound to no table (table 0 still holds group 0); and
with a table free (scenario `sEmpty`), the write of the binding into
`assignedTable` appears in the group's own trace — the group binds itself,
the receptionist is not involved. -/
theorem C3_checkIn_no_block_and_self_binding :
    resVal (checkInAtReception (testConsts 3 1) 1 sFull) = some false ∧
    (sysAfter (checkInAtReception (testConsts 3 1) 1 sFull)).fSt.groupStat 1 =
      WAITING ∧
    (sysAfter (checkInAtReception (testConsts 3 1) 1 sFull)).fSt.assignedTable 0 =
      0 ∧
    Ev.wr Field.assignedTable 0 ∈
      (sysAfter (checkInAtReception (testConsts 3 1) 0 sEmpty)).tr := by
  decide

/-- C4: the spec's table invariant requires every group in an
ordering/awaiting-food/eating/checking-out state to be bound to exactly one
table.  The code violates it: with the single table occupied by group 0
(scenario `sFull`), group 1 runs `checkInAtReception` (ending `WAITING`
without blocking) and then `orderFood`, after which its status is
`FOOD_REQUEST` (ordering) while no table is bound to it — table 0, the only
table, still holds group 0. -/
theorem C4_ordering_group_with_no_table :
    (sysAfter (bindRes (checkInAtReception (testConsts 3 1) 1 sFull)
        (orderFood (testConsts 3 1) 1))).fSt.groupStat 1 =
      (testConsts 3 1).FOOD_REQUEST ∧
    (sysAfter (bindRes (checkInAtReception (testConsts 3 1) 1 sFull)
        (orderFood (testConsts 3 1) 1))).fSt.assignedTable 0 = 0 := by
  decide

/-- C5: the spec states that when group `g` holds table `t`
(`assignedTable[t] = g`), `receivePayment(g)` frees exactly that table and
marks `g`'s record `Done`.  The code indexes `assignedTable` by the group
id and treats the stored value as a table id: with group 0 seated at
table 1 (scenario `sPay2`, `assignedTable = [-1, 0]`), it reads
`assignedTable[0] = -1`, writes the out-of-range slot `assignedTable[-1]`,
and leaves table 1 still bound to group 0; it then deadlocks inside
`decideNextGroup`.  Only the `groupRecord[0] = DONE` part of the claim
holds. -/
theorem C5_receivePayment_frees_wrong_slot :
    (sysAfter (receivePayment (testConsts 3 2) 0 sPay2)).fSt.assignedTable 1 =
      0 ∧
    Ev.wr Field.assignedTable (-1) ∈
      (sysAfter (receivePayment (testConsts 3 2) 0 sPay2)).tr ∧
    (sysAfter (receivePayment (testConsts 3 2) 0 sPay2)).groupRecord 0 = DONE ∧
    blockedOn (receivePayment (testConsts 3 2) 0 sPay2) SemName.mutex = true := by
  decide

/-- C6: the spec states that when `receivePayment` frees a table while
groups are waiting, the lowest-indexed waiting group is bound to it, set to
`Seated`, recorded `Seated` and signalled.  In the code this handoff is
unreachable: `decideNextGroup` (whose scan would indeed pick the
lowest-indexed `WAIT` group) begins with a `semDown` on the mutex already
held by `receivePayment`, so the receptionist deadlocks there.  With group
0 paying and groups 1 and 2 waiting on the single table (scenario `sPay`),
`receivePayment` blocks on the mutex and the lowest-indexed waiting group 1
keeps record `WAIT`, status `WAITING`, and an unsignalled `waitForTable`
channel. -/
theorem C6_freed_table_handoff_deadlocks :
    blockedOn (receivePayment (testConsts 3 1) 0 sPay) SemName.mutex = true ∧
    (sysAfter (receivePayment (testConsts 3 1) 0 sPay)).groupRecord 1 = WAIT ∧
    (sysAfter (receivePayment (testConsts 3 1) 0 sPay)).fSt.groupStat 1 =
      WAITING ∧
    (sysAfter (receivePayment (testConsts 3 1) 0 sPay)).sems.waitForTable 1 =
      0 := by
  decide

/-- C7: the spec's contract requires every read and write of a shared field
to happen between an acquire and a release of the mutex.  The code breaks
the discipline: in a completed run of `waitFood` for group 0 (scenario
`sFood`, food already signalled), the read of `assignedTable[0]` that
fetches the group's table happens after the mutex was released, so the
run's trace fails the gate-discipline check. -/
theorem C7_waitFood_reads_outside_gate :
    resVal (waitFood (testConsts 3 1) 0 sFood) = some () ∧
    accessesUnderGate 0 (sysAfter (waitFood (testConsts 3 1) 0 sFood)).tr =
      false ∧
    Ev.rd Field.assignedTable 0 ∈
      (sysAfter (waitFood (testConsts 3 1) 0 sFood)).tr := by
  decide

/-- C8: the spec states that when neither a pending order nor a chef
ready-signal is present, the waiter blocks on a true wake primitive rather
than looping on the CPU.  The code's `waitForClientOrChef` instead runs a
`while (!foundRequest)` loop that re-acquires and releases the mutex and
re-scans forever: from the idle scenario `sIdle` (no group in
`FOOD_REQUEST`, chef not `FOODREADY`), for every iteration budget the loop
is still spinning — it never blocks on any semaphore and never returns. -/
theorem C8_waiter_spins_instead_of_blocking :
    ∀ fuel : Nat, ∃ s2,
      waitForClientOrChef (testConsts 3 1) fuel sIdle = WaiterRes.spinning s2 := by
  intro fuel
  apply spin_forever (testConsts 3 1) fuel sIdle
  unfold noPending
  refine ⟨rfl, by decide, rfl⟩

/-- C9: the spec states that `groupsWaitingCount` equals the number of
groups that have checked in but not yet been seated, incremented on
check-in and decremented when a group leaves Waiting by being seated.  The
code increments it unconditionally on check-in and never decrements it
anywhere: after group 0 checks into the empty restaurant (scenario
`sEmpty`) and is seated immediately, the counter reads 1 although zero
groups are checked-in-but-unseated; and `receivePayment` — the only place a
seating of a waiting group could occur — leaves the counter untouched
(scenario `sPay`). -/
theorem C9_groupsWaiting_is_not_waiting_count :
    (sysAfter (checkInAtReception (testConsts 3 1) 0 sEmpty)).fSt.groupsWaiting =
      1 ∧
    (sysAfter (checkInAtReception (testConsts 3 1) 0 sEmpty)).fSt.groupStat 0 =
      AT_TABLE ∧
    (sysAfter (receivePayment (testConsts 3 1) 0 sPay)).fSt.groupsWaiting =
      sPay.fSt.groupsWaiting := by
  decide

theorem provideTableOrWaitingRoom_eq (c : Consts) (n : Int) (s : Sys) :
    provideTableOrWaitingRoom c n s =
      if s.sems.mutex = 0 then Res.blocked SemName.mutex 0 s
      else
        Res.done ()
          (upMutex
            (if (decideTableOrWait c (acqState s).fSt n != -1) = true then
              upWaitForTable n
                (wrGroupRecord n ATTABLE
                  (wrReceptionistStat c.ASSIGNTABLE (acqState s)))
            else wrGroupRecord n WAIT (wrReceptionistStat WAIT (acqState s)))) := by
  unfold provideTableOrWaitingRoom downMutex
  by_cases hm : s.sems.mutex = 0
  · rw [if_pos hm, if_pos hm]
  · rw [if_neg hm, if_neg hm]

/-- C10: frame property of `provideTableOrWaitingRoom` — for every group
`n` and every state, it never modifies `assignedTable` nor any entry of
`groupStat`; the only data it may change are the receptionist's status, the
receptionist's private `groupRecord` at index `n`, the `waitForTable[n]`
channel, and nothing else: all other shared fields and semaphore counters
(the mutex included, which it releases if it acquired it) are exactly
preserved. -/
theorem C10_provideTableOrWaitingRoom_frame (c : Consts) (n : Int) (s : Sys) :
    (sysAfter (provideTableOrWaitingRoom c n s)).fSt.assignedTable =
        s.fSt.assignedTable ∧
    (sysAfter (provideTableOrWaitingRoom c n s)).fSt.groupStat =
        s.fSt.groupStat ∧
    (sysAfter (provideTableOrWaitingRoom c n s)).fSt.waiterStat =
        s.fSt.waiterStat ∧
    (sysAfter (provideTableOrWaitingRoom c n s)).fSt.chefStat =
        s.fSt.chefStat ∧
    (sysAfter (provideTableOrWaitingRoom c n s)).fSt.groupsWaiting =
        s.fSt.groupsWaiting ∧
    (sysAfter (provideTableOrWaitingRoom c n s)).fSt.receptionistRequest =
        s.fSt.receptionistRequest ∧
    (sysAfter (provideTableOrWaitingRoom c n s)).fSt.waiterRequest =
        s.fSt.waiterRequest ∧
    (sysAfter (provideTableOrWaitingRoom c n s)).fSt.foodGroup =
        s.fSt.foodGroup ∧
    (sysAfter (provideTableOrWaitingRoom c n s)).groupRecord =
        upd s.groupRecord n
          ((sysAfter (provideTableOrWaitingRoom c n s)).groupRecord n) ∧
    (sysAfter (provideTableOrWaitingRoom c n s)).sems.mutex = s.sems.mutex ∧
    (sysAfter (provideTableOrWaitingRoom c n s)).sems.waitForTable =
        updN s.sems.waitForTable n
          ((sysAfter (provideTableOrWaitingRoom c n s)).sems.waitForTable n) ∧
    (sysAfter (provideTableOrWaitingRoom c n s)).sems.tableDone =
        s.sems.tableDone ∧
    (sysAfter (provideTableOrWaitingRoom c n s)).sems.foodArrived =
        s.sems.foodArrived ∧
    (sysAfter (provideTableOrWaitingRoom c n s)).sems.waiterRequestPossible =
        s.sems.waiterRequestPossible ∧
    (sysAfter (provideTableOrWaitingRoom c n s)).sems.waitOrder =
        s.sems.waitOrder ∧
    (sysAfter (provideTableOrWaitingRoom c n s)).sems.orderReceived =
        s.sems.orderReceived := by
  rw [provideTableOrWaitingRoom_eq]
  by_cases hm : s.sems.mutex = 0
  · rw [if_pos hm]
    exact ⟨rfl, rfl, rfl, rfl, rfl, rfl, rfl, rfl, (upd_self _ _).symm, rfl,
      (updN_self _ _).symm, rfl, rfl, rfl, rfl, rfl⟩
  · rw [if_neg hm]
    by_cases ht : (decideTableOrWait c (acqState s).fSt n != -1) = true
    · rw [if_pos ht]
      refine ⟨rfl, rfl, rfl, rfl, rfl, rfl, rfl, rfl, ?_, ?_, ?_, rfl, rfl,
        rfl, rfl, rfl⟩
      · show upd s.groupRecord n ATTABLE =
          upd s.groupRecord n (upd s.groupRecord n ATTABLE n)
        rw [upd_same]
      · exact Nat.succ_pred_eq_of_pos (Nat.pos_of_ne_zero hm)
      · show updN s.sems.waitForTable n (s.sems.waitForTable n + 1) =
          updN s.sems.waitForTable n
            (updN s.sems.waitForTable n (s.sems.waitForTable n + 1) n)
        rw [updN_same]
    · rw [if_neg ht]
      refine ⟨rfl, rfl, rfl, rfl, rfl, rfl, rfl, rfl, ?_, ?_, ?_, rfl, rfl,
        rfl, rfl, rfl⟩
      · show upd s.groupRecord n WAIT =
          upd s.groupRecord n (upd s.groupRecord n WAIT n)
        rw [upd_same]
      · exact Nat.succ_pred_eq_of_pos (Nat.pos_of_ne_zero hm)
      · exact (updN_self _ _).symm

end Restaurant
